import Mathlib

/-!
Verification of the exchange-core abstraction layer.

The repository wraps an external exchange-connectivity backend behind a
uniform interface: every operation calls the backend, then reshapes the
backend's response into local value objects (Ticker, Position, Order,
OHLCV, Orderbook).  The reshaping logic of `hyperliquid.py` and the data
model of `interface.py` are embedded here as pure functions: the backend's
response is a parameter, and the embedded function performs exactly the
reshaping the Python code performs on it.

Numbers are modelled as rationals.  A backend field value is a `PyVal`:
`vNone` for Python `None`, `vNum q` for a numeric value `q`, and `vStr q`
for a non-empty string that spells the number `q` (string-typed numeric
fields do occur in backend responses and are coerced with `float(...)` /
`int(...)` by the source).  Calls that the Python code lets raise
(`float(None)`, out-of-range indexing) are modelled with `Option`;
backend-raised errors are modelled with `Except`.
-/

namespace ExchangeCore

/-- Claim-relevant fragment of a Python value as it arrives in a backend
response: `None`, a number, or a non-empty string spelling a number. -/
inductive PyVal where
  | vNone : PyVal
  | vNum : ℚ → PyVal
  | vStr : ℚ → PyVal
deriving DecidableEq

/-- Python `float(x)`: fails (raises) on `None`, reads a number through,
parses a numeric string.  Embeds the coercions in `hyperliquid.py`. -/
def pyFloat : PyVal → Option ℚ
  | PyVal.vNone => none
  | PyVal.vNum q => some q
  | PyVal.vStr q => some q

/-- Python `float(x or 0)` as used in `get_position`: a falsy `x`
(`None`, the number `0`) is replaced by `0` before coercion; a non-empty
numeric string is truthy and parses to its value.  Total, because the
`or 0` removes the `None` case. -/
def pyFloatOrZero : PyVal → ℚ
  | PyVal.vNone => 0
  | PyVal.vNum q => q
  | PyVal.vStr q => q

/-- Python `int(x)`: fails on `None`, truncates a number toward zero,
parses a string only when it spells an integer. -/
def pyInt : PyVal → Option ℤ
  | PyVal.vNone => none
  | PyVal.vNum q => some (q.num.tdiv (q.den : ℤ))
  | PyVal.vStr q => if q.den = 1 then some q.num else none

/-- Position side in the local data model (`Literal["Buy", "Sell"]`). -/
inductive Side where
  | Buy : Side
  | Sell : Side
deriving DecidableEq

/-- The `Position` value object of `interface.py`: `side` is `none` when
flat. -/
structure Position where
  symbol : String
  side : Option Side
  size : ℚ
  entry_price : ℚ
  unrealized_pnl : ℚ
deriving DecidableEq

/-- One record of the backend's `fetch_positions` response, restricted to
the fields `get_position` reads.  `side` is the backend's long/short
vocabulary and may be absent. -/
structure RawPosition where
  symbol : String
  side : Option String
  contracts : PyVal
  entryPrice : PyVal
  unrealizedPnl : PyVal
deriving DecidableEq

/-- The flat-Position sentinel that `get_position` returns for the
"no position", "symbol not found" and "zero contract size" cases. -/
def flatPosition (symbol : String) : Position :=
  { symbol := symbol
  , side := none
  , size := 0
  , entry_price := 0
  , unrealized_pnl := 0 }

/-- The Position built by `get_position` from a matching backend record
with nonzero contract size: backend side `"long"` maps to `Buy`, anything
else to `Sell`; `size` is the absolute contract count; `entryPrice` and
`unrealizedPnl` are coerced with `float(... or 0)`. -/
def mkPosition (symbol : String) (p : RawPosition) : Position :=
  { symbol := symbol
  , side := some (if p.side = some ("long") then Side.Buy else Side.Sell)
  , size := |pyFloatOrZero p.contracts|
  , entry_price := pyFloatOrZero p.entryPrice
  , unrealized_pnl := pyFloatOrZero p.unrealizedPnl }

/-- The `for pos in positions` loop of `get_position`: first record whose
`symbol` matches decides the result (flat when its contract size is zero),
and falling off the end yields the flat sentinel. -/
def positionScan (symbol : String) : List RawPosition → Position
  | [] => flatPosition symbol
  | pos :: rest =>
    if pos.symbol = symbol then
      if pyFloatOrZero pos.contracts = 0 then flatPosition symbol
      else mkPosition symbol pos
    else positionScan symbol rest

/-- `HyperliquidExchange.get_position`, as a function of the backend's
`fetch_positions` response: an empty response short-circuits to the flat
sentinel, otherwise the response list is scanned. -/
def get_position (symbol : String) (positions : List RawPosition) : Position :=
  if positions.isEmpty then flatPosition symbol
  else positionScan symbol positions

theorem get_position_eq_scan (symbol : String) (positions : List RawPosition) :
    get_position symbol positions = positionScan symbol positions := by
  cases positions with
  | nil => rfl
  | cons p rest => simp [get_position]

theorem positionScan_find_none (symbol : String) :
    ∀ positions : List RawPosition,
      positions.find? (fun q => q.symbol == symbol) = none →
      positionScan symbol positions = flatPosition symbol := by
  intro positions
  induction positions with
  | nil => intro _; rfl
  | cons pos rest ih =>
    intro h
    by_cases hs : pos.symbol = symbol
    · rw [List.find?_cons_of_pos _ (by simp [hs])] at h
      exact absurd h (by simp)
    · rw [List.find?_cons_of_neg _ (by simp [hs])] at h
      simp only [positionScan, if_neg hs]
      exact ih h

theorem positionScan_find_some (symbol : String) (p : RawPosition) :
    ∀ positions : List RawPosition,
      positions.find? (fun q => q.symbol == symbol) = some p →
      positionScan symbol positions =
        if pyFloatOrZero p.contracts = 0 then flatPosition symbol
        else mkPosition symbol p := by
  intro positions
  induction positions with
  | nil => intro h; simp [List.find?] at h
  | cons pos rest ih =>
    intro h
    by_cases hs : pos.symbol = symbol
    · rw [List.find?_cons_of_pos _ (by simp [hs])] at h
      injection h with h
      subst h
      simp only [positionScan, if_pos hs]
    · rw [List.find?_cons_of_neg _ (by simp [hs])] at h
      simp only [positionScan, if_neg hs]
      exact ih h

/-- Claim C1: whenever the backend's `fetch_positions` response is empty,
contains no record for the requested symbol, or the record found for the
symbol has contract size exactly zero, `get_position` returns the flat
sentinel (side absent, size 0, entry price 0, unrealized PnL 0) and no
error is possible (the function is total). -/
theorem get_position_flat_sentinel (symbol : String) (positions : List RawPosition)
    (h : positions = [] ∨
      positions.find? (fun q => q.symbol == symbol) = none ∨
      ∃ p, positions.find? (fun q => q.symbol == symbol) = some p ∧
        pyFloatOrZero p.contracts = 0) :
    get_position symbol positions =
      { symbol := symbol
      , side := none
      , size := 0
      , entry_price := 0
      , unrealized_pnl := 0 } := by
  rw [get_position_eq_scan]
  rcases h with rfl | h | ⟨p, hfind, hz⟩
  · rfl
  · rw [positionScan_find_none symbol positions h]; rfl
  · rw [positionScan_find_some symbol p positions hfind, if_pos hz]; rfl

theorem get_position_flat_sentinel_witness :
    (([] : List RawPosition) = [] ∨
      ([] : List RawPosition).find? (fun q => q.symbol == ("BTC/USDC:USDC")) = none ∨
      ∃ p, ([] : List RawPosition).find? (fun q => q.symbol == ("BTC/USDC:USDC")) = some p ∧
        pyFloatOrZero p.contracts = 0) ∧
    get_position ("BTC/USDC:USDC") [] =
      { symbol := ("BTC/USDC:USDC")
      , side := none
      , size := 0
      , entry_price := 0
      , unrealized_pnl := 0 } :=
  ⟨Or.inl rfl, get_position_flat_sentinel ("BTC/USDC:USDC") [] (Or.inl rfl)⟩

/-- Claim C2: a backend record matched for the requested symbol with
nonzero contract size yields side `Buy` for backend side `"long"` and side
`Sell` for `"short"`, with `contracts`, `entryPrice` and `unrealizedPnl`
(possibly string-typed, see `pyFloatOrZero`) coerced to numbers. -/
theorem get_position_side_and_coercion (symbol : String) (positions : List RawPosition)
    (p : RawPosition)
    (hfind : positions.find? (fun q => q.symbol == symbol) = some p)
    (hsz : pyFloatOrZero p.contracts ≠ 0) :
    (p.side = some ("long") → (get_position symbol positions).side = some Side.Buy) ∧
    (p.side = some ("short") → (get_position symbol positions).side = some Side.Sell) ∧
    (get_position symbol positions).symbol = symbol ∧
    (get_position symbol positions).size = |pyFloatOrZero p.contracts| ∧
    (get_position symbol positions).entry_price = pyFloatOrZero p.entryPrice ∧
    (get_position symbol positions).unrealized_pnl = pyFloatOrZero p.unrealizedPnl := by
  rw [get_position_eq_scan, positionScan_find_some symbol p positions hfind, if_neg hsz]
  refine ⟨?_, ?_, rfl, rfl, rfl, rfl⟩
  · intro hl
    simp [mkPosition, hl]
  · intro hl
    simp [mkPosition, hl]

/-- The scenario record of the spec: symbol `BTC/USDC:USDC`, side long,
contracts `"1.5"`, entryPrice `"30000"`, unrealizedPnl `"150.25"` (all
string-typed numbers). -/
def scenarioPosition : RawPosition :=
  { symbol := ("BTC/USDC:USDC")
  , side := some ("long")
  , contracts := PyVal.vStr (mkRat 3 2)
  , entryPrice := PyVal.vStr 30000
  , unrealizedPnl := PyVal.vStr (mkRat 601 4) }

theorem get_position_side_and_coercion_witness :
    ([scenarioPosition].find? (fun q => q.symbol == ("BTC/USDC:USDC")) = some scenarioPosition) ∧
    pyFloatOrZero scenarioPosition.contracts ≠ 0 ∧
    (get_position ("BTC/USDC:USDC") [scenarioPosition]).side = some Side.Buy ∧
    (get_position ("BTC/USDC:USDC") [scenarioPosition]).size = mkRat 3 2 ∧
    (get_position ("BTC/USDC:USDC") [scenarioPosition]).entry_price = 30000 ∧
    (get_position ("BTC/USDC:USDC") [scenarioPosition]).unrealized_pnl = mkRat 601 4 := by
  have hfind : [scenarioPosition].find? (fun q => q.symbol == ("BTC/USDC:USDC")) =
      some scenarioPosition := by decide
  have hsz : pyFloatOrZero scenarioPosition.contracts ≠ 0 := by decide
  obtain ⟨h1, _, _, h4, h5, h6⟩ :=
    get_position_side_and_coercion ("BTC/USDC:USDC") [scenarioPosition] scenarioPosition hfind hsz
  exact ⟨hfind, hsz, h1 rfl, h4.trans (by decide), h5.trans (by decide), h6.trans (by decide)⟩

/-- Claim C8: every Position returned by `get_position` has absent side
exactly when its size is zero, and its size is non-negative (the absolute
value of the backend contract count). -/
theorem get_position_invariant (symbol : String) (positions : List RawPosition) :
    ((get_position symbol positions).side = none ↔ (get_position symbol positions).size = 0) ∧
    0 ≤ (get_position symbol positions).size := by
  rw [get_position_eq_scan]
  induction positions with
  | nil => simp [positionScan, flatPosition]
  | cons pos rest ih =>
    by_cases hs : pos.symbol = symbol
    · by_cases hz : pyFloatOrZero pos.contracts = 0
      · simp [positionScan, hs, hz, flatPosition]
      · simp only [positionScan, if_pos hs, if_neg hz]
        refine ⟨?_, abs_nonneg _⟩
        simp [mkPosition, abs_eq_zero, hz]
    · simpa [positionScan, hs] using ih

/-- Claim C10: for a matched record with nonzero contract size, every
backend side other than exactly `"long"` — `"short"`, absent, or any other
string — maps to `Sell`; `Buy` arises only from exactly `"long"`. -/
theorem get_position_default_side_sell (symbol : String) (positions : List RawPosition)
    (p : RawPosition)
    (hfind : positions.find? (fun q => q.symbol == symbol) = some p)
    (hsz : pyFloatOrZero p.contracts ≠ 0) :
    (p.side ≠ some ("long") → (get_position symbol positions).side = some Side.Sell) ∧
    ((get_position symbol positions).side = some Side.Buy → p.side = some ("long")) := by
  rw [get_position_eq_scan, positionScan_find_some symbol p positions hfind, if_neg hsz]
  constructor
  · intro hne
    simp [mkPosition, if_neg hne]
  · intro hb
    by_contra hne
    simp [mkPosition, if_neg hne] at hb

/-- A backend record with an absent side field and nonzero contract
count, exercising the default branch of the side translation. -/
def scenarioNoSide : RawPosition :=
  { symbol := ("ETH/USDC:USDC")
  , side := none
  , contracts := PyVal.vNum 2
  , entryPrice := PyVal.vNum 1000
  , unrealizedPnl := PyVal.vNone }

theorem get_position_default_side_sell_witness :
    ([scenarioNoSide].find? (fun q => q.symbol == ("ETH/USDC:USDC")) = some scenarioNoSide) ∧
    pyFloatOrZero scenarioNoSide.contracts ≠ 0 ∧
    scenarioNoSide.side ≠ some ("long") ∧
    (get_position ("ETH/USDC:USDC") [scenarioNoSide]).side = some Side.Sell := by
  have hfind : [scenarioNoSide].find? (fun q => q.symbol == ("ETH/USDC:USDC")) =
      some scenarioNoSide := by decide
  have hsz : pyFloatOrZero scenarioNoSide.contracts ≠ 0 := by decide
  have hne : scenarioNoSide.side ≠ some ("long") := by decide
  exact ⟨hfind, hsz, hne,
    (get_position_default_side_sell ("ETH/USDC:USDC") [scenarioNoSide] scenarioNoSide
      hfind hsz).1 hne⟩

/-- The `Order` value object of `interface.py`: `price` is `none` for
market orders.  No status field is modelled (commented out in source). -/
structure Order where
  id : String
  symbol : String
  side : String
  amount : ℚ
  price : Option ℚ
deriving DecidableEq

/-- The backend's `create_order` response, restricted to the fields the
adapter could read: the order id (already rendered to a string, as
`str(response["id"])` does) plus price and status fields that the adapter
deliberately ignores. -/
structure RawOrderResponse where
  id : String
  price : PyVal
  status : Option String
deriving DecidableEq

/-- `HyperliquidExchange.place_limit_order`, as a function of the
submitted arguments and of the backend response: every Order field except
`id` echoes the arguments. -/
def place_limit_order (symbol side : String) (amount price : ℚ)
    (response : RawOrderResponse) : Order :=
  { id := response.id
  , symbol := symbol
  , side := side
  , amount := amount
  , price := some price }

/-- `HyperliquidExchange.place_market_order`: like the limit variant but
the returned Order's price is hard-coded to `None`. -/
def place_market_order (symbol side : String) (amount : ℚ)
    (response : RawOrderResponse) : Order :=
  { id := response.id
  , symbol := symbol
  , side := side
  , amount := amount
  , price := none }

/-- Claim C3: a successful `place_limit_order` returns an Order whose
price, symbol, side and amount echo the submitted arguments exactly —
the backend response contributes only the id, whatever its content. -/
theorem place_limit_order_echoes (symbol side : String) (amount price : ℚ)
    (response : RawOrderResponse) :
    (place_limit_order symbol side amount price response).price = some price ∧
    (place_limit_order symbol side amount price response).symbol = symbol ∧
    (place_limit_order symbol side amount price response).side = side ∧
    (place_limit_order symbol side amount price response).amount = amount ∧
    (place_limit_order symbol side amount price response).id = response.id :=
  ⟨rfl, rfl, rfl, rfl, rfl⟩

/-- Claim C4: a successful `place_market_order` returns an Order whose
price field is absent, regardless of the backend response's content. -/
theorem place_market_order_price_absent (symbol side : String) (amount : ℚ)
    (response : RawOrderResponse) :
    (place_market_order symbol side amount response).price = none ∧
    place_market_order symbol side amount response =
      { id := response.id
      , symbol := symbol
      , side := side
      , amount := amount
      , price := none } :=
  ⟨rfl, rfl⟩

/-- The `Orderbook` value object of `interface.py`: two sequences of
`[price, amount]` entries, stored as the backend ordered them. -/
structure Orderbook where
  asks : List (List ℚ)
  bids : List (List ℚ)
deriving DecidableEq

/-- `Orderbook.best_ask`, i.e. `self.asks[0][0]`: `none` models the
IndexError Python raises when the indexing fails. -/
def Orderbook.best_ask (ob : Orderbook) : Option ℚ :=
  match ob.asks with
  | [] => none
  | entry :: _ => entry.head?

/-- `Orderbook.best_bid`, i.e. `self.bids[0][0]`. -/
def Orderbook.best_bid (ob : Orderbook) : Option ℚ :=
  match ob.bids with
  | [] => none
  | entry :: _ => entry.head?

/-- Claim C5: on an Orderbook whose asks sequence is non-empty (and whose
first entry carries a price), `best_ask` is that first entry's price;
symmetrically for `best_bid` over bids; on an empty sequence the accessor
yields the defined error value instead of a price. -/
theorem orderbook_best_accessors (ob : Orderbook) :
    (∀ price amounts tail, ob.asks = (price :: amounts) :: tail →
      ob.best_ask = some price) ∧
    (ob.asks = [] → ob.best_ask = none) ∧
    (∀ price amounts tail, ob.bids = (price :: amounts) :: tail →
      ob.best_bid = some price) ∧
    (ob.bids = [] → ob.best_bid = none) := by
  refine ⟨?_, ?_, ?_, ?_⟩
  · intro price amounts tail h
    simp [Orderbook.best_ask, h]
  · intro h
    simp [Orderbook.best_ask, h]
  · intro price amounts tail h
    simp [Orderbook.best_bid, h]
  · intro h
    simp [Orderbook.best_bid, h]

/-- The orderbook of the spec's round-trip scenario, after translation:
asks `[[100.5, 2.0], [101.0, 1.0]]`, bids `[[100.0, 3.0], [99.5, 1.0]]`. -/
def scenarioOrderbook : Orderbook :=
  { asks := [[mkRat 201 2, 2], [101, 1]]
  , bids := [[100, 3], [mkRat 199 2, 1]] }

/-- An orderbook with both sequences empty, on which both accessors
fail. -/
def emptyOrderbook : Orderbook :=
  { asks := [], bids := [] }

theorem orderbook_best_accessors_witness :
    scenarioOrderbook.asks = (mkRat 201 2 :: [2]) :: [[101, 1]] ∧
    scenarioOrderbook.best_ask = some (mkRat 201 2) ∧
    scenarioOrderbook.bids = ((100 : ℚ) :: [3]) :: [[mkRat 199 2, 1]] ∧
    scenarioOrderbook.best_bid = some 100 ∧
    emptyOrderbook.asks = [] ∧
    emptyOrderbook.best_ask = none ∧
    emptyOrderbook.bids = [] ∧
    emptyOrderbook.best_bid = none :=
  ⟨rfl, (orderbook_best_accessors scenarioOrderbook).1 _ _ _ rfl,
   rfl, (orderbook_best_accessors scenarioOrderbook).2.2.1 _ _ _ rfl,
   rfl, (orderbook_best_accessors emptyOrderbook).2.1 rfl,
   rfl, (orderbook_best_accessors emptyOrderbook).2.2.2 rfl⟩

/-- The backend's `fetch_order_book` response, restricted to the two
fields the adapter reads: each book entry is a list of raw values indexed
at positions 0 (price) and 1 (amount). -/
structure RawOrderbook where
  asks : List (List PyVal)
  bids : List (List PyVal)
deriving DecidableEq

/-- One entry of the comprehension in `get_orderbook`:
`[float(entry[0]), float(entry[1])]`, failing when the entry is too short
or a coercion raises. -/
def convertBookEntry (entry : List PyVal) : Option (List ℚ) :=
  match (entry[0]?).bind pyFloat, (entry[1]?).bind pyFloat with
  | some price, some amount => some [price, amount]
  | _, _ => none

/-- A whole comprehension `[[float(e[0]), float(e[1])] for e in side]`:
any failing entry fails the whole list, order is kept. -/
def convertBook : List (List PyVal) → Option (List (List ℚ))
  | [] => some []
  | entry :: rest =>
    match convertBookEntry entry, convertBook rest with
    | some c, some cs => some (c :: cs)
    | _, _ => none

/-- `HyperliquidExchange.get_orderbook`, as a function of the backend's
`fetch_order_book` response. -/
def get_orderbook (response : RawOrderbook) : Option Orderbook :=
  match convertBook response.asks, convertBook response.bids with
  | some asks, some bids => some { asks := asks, bids := bids }
  | _, _ => none

theorem convertBookEntry_eq_some {entry : List PyVal} {c : List ℚ}
    (h : convertBookEntry entry = some c) :
    ∃ price amount, (entry[0]?).bind pyFloat = some price ∧
      (entry[1]?).bind pyFloat = some amount ∧ c = [price, amount] := by
  unfold convertBookEntry at h
  split at h
  · injection h with h
    exact ⟨_, _, by assumption, by assumption, h.symm⟩
  · exact absurd h (by simp)

theorem convertBook_forall₂ :
    ∀ {xs : List (List PyVal)} {ys : List (List ℚ)}, convertBook xs = some ys →
      List.Forall₂ (fun entry c => convertBookEntry entry = some c) xs ys := by
  intro xs
  induction xs with
  | nil =>
    intro ys h
    injection h with h
    subst h
    exact List.Forall₂.nil
  | cons entry rest ih =>
    intro ys h
    unfold convertBook at h
    split at h
    · injection h with h
      subst h
      exact List.Forall₂.cons (by assumption) (ih (by assumption))
    · exact absurd h (by simp)

/-- Claim C6: a successful `get_orderbook` preserves the backend's
ordering of both sequences entry by entry, each entry's price and amount
being the coerced values at indices 0 and 1 of the corresponding raw
entry; lengths are preserved as a consequence. -/
theorem get_orderbook_preserves (response : RawOrderbook) (ob : Orderbook)
    (h : get_orderbook response = some ob) :
    List.Forall₂ (fun entry c => ∃ price amount,
        (entry[0]?).bind pyFloat = some price ∧
        (entry[1]?).bind pyFloat = some amount ∧
        c = [price, amount]) response.asks ob.asks ∧
    List.Forall₂ (fun entry c => ∃ price amount,
        (entry[0]?).bind pyFloat = some price ∧
        (entry[1]?).bind pyFloat = some amount ∧
        c = [price, amount]) response.bids ob.bids ∧
    ob.asks.length = response.asks.length ∧
    ob.bids.length = response.bids.length := by
  unfold get_orderbook at h
  split at h
  next asks bids hca hcb =>
    injection h with h
    subst h
    have ha := convertBook_forall₂ hca
    have hb := convertBook_forall₂ hcb
    exact ⟨ha.imp (fun _ _ he => convertBookEntry_eq_some he),
      hb.imp (fun _ _ he => convertBookEntry_eq_some he),
      ha.length_eq.symm, hb.length_eq.symm⟩
  next => exact absurd h (by simp)

/-- The raw `fetch_order_book` response of the spec's round-trip
scenario: asks `[[100.5, 2.0], [101.0, 1.0]]`, bids
`[[100.0, 3.0], [99.5, 1.0]]`. -/
def rawScenarioBook : RawOrderbook :=
  { asks := [[PyVal.vNum (mkRat 201 2), PyVal.vNum 2], [PyVal.vNum 101, PyVal.vNum 1]]
  , bids := [[PyVal.vNum 100, PyVal.vNum 3], [PyVal.vNum (mkRat 199 2), PyVal.vNum 1]] }

theorem get_orderbook_preserves_witness :
    get_orderbook rawScenarioBook = some scenarioOrderbook ∧
    scenarioOrderbook.best_ask = some (mkRat 201 2) ∧
    scenarioOrderbook.best_bid = some 100 ∧
    List.Forall₂ (fun entry c => ∃ price amount,
        (entry[0]?).bind pyFloat = some price ∧
        (entry[1]?).bind pyFloat = some amount ∧
        c = [price, amount]) rawScenarioBook.asks scenarioOrderbook.asks ∧
    List.Forall₂ (fun entry c => ∃ price amount,
        (entry[0]?).bind pyFloat = some price ∧
        (entry[1]?).bind pyFloat = some amount ∧
        c = [price, amount]) rawScenarioBook.bids scenarioOrderbook.bids := by
  have h : get_orderbook rawScenarioBook = some scenarioOrderbook := by decide
  obtain ⟨ha, hb, _, _⟩ := get_orderbook_preserves rawScenarioBook scenarioOrderbook h
  exact ⟨h, rfl, rfl, ha, hb⟩

/-- The `OHLCV` value object of `interface.py`: one candlestick. -/
structure OHLCV where
  timestamp : ℤ
  «open» : ℚ
  high : ℚ
  low : ℚ
  close : ℚ
  volume : ℚ
deriving DecidableEq

/-- One entry of the comprehension in `get_ohlcv`:
`OHLCV(timestamp=int(candle[0]), open=float(candle[1]), ...)`, failing
when the raw candle is too short or a coercion raises. -/
def toOHLCV (candle : List PyVal) : Option OHLCV :=
  match (candle[0]?).bind pyInt, (candle[1]?).bind pyFloat,
        (candle[2]?).bind pyFloat, (candle[3]?).bind pyFloat,
        (candle[4]?).bind pyFloat, (candle[5]?).bind pyFloat with
  | some t, some o, some h, some l, some c, some v =>
    some { timestamp := t, «open» := o, high := h, low := l, close := c, volume := v }
  | _, _, _, _, _, _ => none

/-- The comprehension over the whole `fetch_ohlcv` response: any failing
candle fails the list, order is kept. -/
def convertCandles : List (List PyVal) → Option (List OHLCV)
  | [] => some []
  | candle :: rest =>
    match toOHLCV candle, convertCandles rest with
    | some entry, some entries => some (entry :: entries)
    | _, _ => none

/-- `HyperliquidExchange.get_ohlcv`, as a function of the backend's
`fetch_ohlcv` response. -/
def get_ohlcv (response : List (List PyVal)) : Option (List OHLCV) :=
  convertCandles response

theorem toOHLCV_eq_some {candle : List PyVal} {entry : OHLCV}
    (h : toOHLCV candle = some entry) :
    (candle[0]?).bind pyInt = some entry.timestamp ∧
    (candle[1]?).bind pyFloat = some entry.«open» ∧
    (candle[2]?).bind pyFloat = some entry.high ∧
    (candle[3]?).bind pyFloat = some entry.low ∧
    (candle[4]?).bind pyFloat = some entry.close ∧
    (candle[5]?).bind pyFloat = some entry.volume := by
  unfold toOHLCV at h
  split at h
  next t o hi l c v h0 h1 h2 h3 h4 h5 =>
    injection h with h
    subst h
    exact ⟨h0, h1, h2, h3, h4, h5⟩
  next => exact absurd h (by simp)

theorem convertCandles_forall₂ :
    ∀ {xs : List (List PyVal)} {ys : List OHLCV}, convertCandles xs = some ys →
      List.Forall₂ (fun candle entry => toOHLCV candle = some entry) xs ys := by
  intro xs
  induction xs with
  | nil =>
    intro ys h
    injection h with h
    subst h
    exact List.Forall₂.nil
  | cons candle rest ih =>
    intro ys h
    unfold convertCandles at h
    split at h
    next entry entries he hr =>
      injection h with h
      subst h
      exact List.Forall₂.cons he (ih hr)
    next => exact absurd h (by simp)

/-- Claim C7: a successful `get_ohlcv` returns as many entries as the
backend sent, in the same order, each entry's timestamp being the raw
candle's field 0 coerced to an integer and its open/high/low/close/volume
the fields 1..5 coerced to numbers. -/
theorem get_ohlcv_preserves (response : List (List PyVal)) (out : List OHLCV)
    (h : get_ohlcv response = some out) :
    out.length = response.length ∧
    List.Forall₂ (fun candle entry =>
      (candle[0]?).bind pyInt = some entry.timestamp ∧
      (candle[1]?).bind pyFloat = some entry.«open» ∧
      (candle[2]?).bind pyFloat = some entry.high ∧
      (candle[3]?).bind pyFloat = some entry.low ∧
      (candle[4]?).bind pyFloat = some entry.close ∧
      (candle[5]?).bind pyFloat = some entry.volume) response out := by
  have hf := convertCandles_forall₂ h
  exact ⟨hf.length_eq.symm, hf.imp (fun _ _ he => toOHLCV_eq_some he)⟩

/-- Three raw candles as a backend could send them, with a mix of
numeric and string-typed fields. -/
def scenarioCandles : List (List PyVal) :=
  [ [PyVal.vNum 1000, PyVal.vNum 1, PyVal.vNum 2, PyVal.vStr (mkRat 1 2),
     PyVal.vNum (mkRat 3 2), PyVal.vStr 10]
  , [PyVal.vStr 2000, PyVal.vNum 2, PyVal.vNum 3, PyVal.vNum 1,
     PyVal.vNum 2, PyVal.vNum 20]
  , [PyVal.vNum 3000, PyVal.vNum 3, PyVal.vNum 4, PyVal.vNum 2,
     PyVal.vNum 3, PyVal.vNum 0] ]

/-- The three OHLCV entries `get_ohlcv` produces from
`scenarioCandles`. -/
def scenarioOHLCV : List OHLCV :=
  [ { timestamp := 1000, «open» := 1, high := 2, low := mkRat 1 2
    , close := mkRat 3 2, volume := 10 }
  , { timestamp := 2000, «open» := 2, high := 3, low := 1
    , close := 2, volume := 20 }
  , { timestamp := 3000, «open» := 3, high := 4, low := 2
    , close := 3, volume := 0 } ]

theorem get_ohlcv_preserves_witness :
    get_ohlcv scenarioCandles = some scenarioOHLCV ∧
    scenarioOHLCV.length = scenarioCandles.length ∧
    scenarioOHLCV.length = 3 := by
  have h : get_ohlcv scenarioCandles = some scenarioOHLCV := by decide
  exact ⟨h, (get_ohlcv_preserves scenarioCandles scenarioOHLCV h).1, rfl⟩

/-- `HyperliquidExchange.cancel_order`, as a function of the backend's
`cancel_order` call: the adapter forwards the identifiers and returns the
backend's outcome as is — no try/except, no translation, no value of its
own (`Unit` models Python's `None` return). -/
def cancel_order (E : Type) (order_id symbol : String)
    (backendCancel : String → String → Except E Unit) : Except E Unit :=
  backendCancel order_id symbol

/-- `HyperliquidExchange.close`: forwards the backend's `close` outcome
as is. -/
def close (E : Type) (backendClose : Except E Unit) : Except E Unit :=
  backendClose

/-- Claim C9: `cancel_order` and `close` return no value on success
(`Unit`), and a backend-raised error surfaces to the caller unchanged —
nothing in this layer catches, translates, retries or suppresses it. -/
theorem cancel_close_propagate (E : Type)
    (backendCancel : String → String → Except E Unit)
    (backendClose : Except E Unit) (order_id symbol : String) :
    (backendCancel order_id symbol = Except.ok () →
      cancel_order E order_id symbol backendCancel = Except.ok ()) ∧
    (∀ e : E, backendCancel order_id symbol = Except.error e →
      cancel_order E order_id symbol backendCancel = Except.error e) ∧
    (backendClose = Except.ok () → close E backendClose = Except.ok ()) ∧
    (∀ e : E, backendClose = Except.error e → close E backendClose = Except.error e) :=
  ⟨fun h => h, fun _ h => h, fun h => h, fun _ h => h⟩

theorem cancel_close_propagate_witness :
    ((fun _ _ => Except.error ("network unreachable") :
        String → String → Except String Unit) ("42") ("BTC/USDC:USDC") =
      Except.error ("network unreachable")) ∧
    cancel_order String ("42") ("BTC/USDC:USDC")
        (fun _ _ => Except.error ("network unreachable")) =
      Except.error ("network unreachable") ∧
    close String (Except.ok ()) = Except.ok () := by
  have h := cancel_close_propagate String
    (fun _ _ => Except.error ("network unreachable")) (Except.ok ()) ("42") ("BTC/USDC:USDC")
  exact ⟨rfl, h.2.1 ("network unreachable") rfl, h.2.2.1 rfl⟩

end ExchangeCore
